import Mathlib

/-!
Verification of the call-session relay of the Twilio / OpenAI realtime voice
relay (main.py, with the refactored copies in src/openai/handler.py,
src/audio/recorder.py and src/conversation/state.py).

The embedding is shallow: the closure variables shared by the two pump
coroutines of `handle_media_stream` become a `SessionState` record, the
conversation object becomes `ConvState`, and each event handler becomes a
pure function from state to state paired with the list of commands it sends
on the two websockets (OpenAI-bound and Twilio-bound), in send order.
Python truthiness tests on optional strings (`if stream_sid:`) are embedded
by `truthyStr`; timestamps are integers (Twilio media timestamps, ms);
wall-clock reads (`datetime.now()`) and strftime formatting are passed in as
explicit parameters.  JSON serialisation of command payloads is abstracted:
a command carries its fields, not its encoded text.
-/

/-- Python truthiness of an optional string: `None` and `""` are falsy. -/
def truthyStr : Option String → Bool
  | none => false
  | some s => s ≠ ""

/-- The payload of a `function_call_output` item, `json.dumps` abstracted:
the source builds either `{"result": s}` or `{"error": s}`. -/
inductive FnOutput
  | result (s : String)
  | error (s : String)
  deriving Repr, DecidableEq

/-- A command sent by the relay on one of its two websockets, in send order.
`truncate`, `itemCreate` (a `conversation.item.create` carrying a
`function_call_output`), `responseCreate` and `audioAppend` go to the OpenAI
websocket; `twilioMedia`, `twilioMark` and `twilioClear` go to the Twilio
websocket. -/
inductive Cmd
  | audioAppend (payload : String)
  | truncate (item_id : String) (content_index : Nat) (audio_end_ms : Int)
  | itemCreate (call_id : String) (output : FnOutput)
  | responseCreate
  | twilioMedia (streamSid : Option String) (payload : String)
  | twilioMark (streamSid : Option String) (name : String)
  | twilioClear (streamSid : Option String)
  deriving Repr, DecidableEq

/-- The connection-specific state of `handle_media_stream` (main.py lines
261-266): the closure variables shared by `receive_from_twilio` and
`send_to_twilio`, mirrored by the fields of `OpenAIHandler`. -/
structure SessionState where
  stream_sid : Option String
  latest_media_timestamp : Int
  last_assistant_item : Option String
  mark_queue : List String
  response_start_timestamp_twilio : Option Int
  deriving Repr, DecidableEq

/-- `handle_speech_started_event` (main.py lines 501-529; identically
`OpenAIHandler.handle_speech_started`).  Guard: `if mark_queue and
response_start_timestamp_twilio is not None`.  Inside the guard the truncate
command is sent only under `if last_assistant_item:` (truthiness), the clear
command is sent unconditionally, and the queue/anchor state is wiped.  There
is no check on the sign of `elapsed_time`. -/
def handle_speech_started_event (s : SessionState) : SessionState × List Cmd :=
  match s.response_start_timestamp_twilio with
  | none => (s, [])
  | some ts =>
    if s.mark_queue.isEmpty then (s, [])
    else
      let elapsed_time : Int := s.latest_media_timestamp - ts
      let truncCmds : List Cmd :=
        if truthyStr s.last_assistant_item then
          [Cmd.truncate (s.last_assistant_item.getD "") 0 elapsed_time]
        else []
      ({ s with mark_queue := [], last_assistant_item := none,
                response_start_timestamp_twilio := none },
       truncCmds ++ [Cmd.twilioClear s.stream_sid])

/-- The `start` branch of `receive_from_twilio` (main.py lines 281-286).
`receive_from_twilio` declares `nonlocal stream_sid, latest_media_timestamp`
only, so its assignments `response_start_timestamp_twilio = None` and
`last_assistant_item = None` bind fresh function-local names and leave the
shared closure variables of the same names unchanged: only `stream_sid` and
`latest_media_timestamp` of the shared state are written. -/
def handle_start_event (s : SessionState) (streamSid : String) : SessionState :=
  { s with stream_sid := some streamSid, latest_media_timestamp := 0 }

/-- The `mark` branch of `receive_from_twilio` (main.py lines 287-289):
`if mark_queue: mark_queue.pop(0)` — pops the oldest entry by position. -/
def handle_mark_event (s : SessionState) : SessionState :=
  match s.mark_queue with
  | [] => s
  | _ :: rest => { s with mark_queue := rest }

/-- `send_mark` (main.py lines 531-539): under `if stream_sid:` it sends a
mark event named "responsePart" to Twilio and appends that name to
`mark_queue`. -/
def send_mark (s : SessionState) : SessionState × List Cmd :=
  if truthyStr s.stream_sid then
    ({ s with mark_queue := s.mark_queue ++ ["responsePart"] },
     [Cmd.twilioMark s.stream_sid "responsePart"])
  else (s, [])

/-- A transcript entry of `ConversationState` (main.py lines 162-170,
src/conversation/state.py): role, text content, timestamp.  Timestamps are
abstract instants (rendered through an explicit formatter where the source
calls `strftime`). -/
structure Message where
  role : String
  content : String
  timestamp : Nat
  deriving Repr, DecidableEq

/-- The per-call `ConversationState` (main.py lines 152-159,
src/conversation/state.py lines 6-14), restricted to the fields the relay
core reads and writes. -/
structure ConvState where
  transcript : List Message
  user_email : Option String
  reason_for_calling : Option String
  call_start_time : Nat
  deriving Repr, DecidableEq

/-- A parsed JSON argument object, as produced by `json.loads` on a tool
call's `arguments` string: an association list of string keys to string
values (all three registered tools take only string parameters).
`ArgMap.get` is Python's `dict.get`, `None` when the key is absent. -/
abbrev ArgMap : Type := List (String × String)

/-- Python `arguments.get(key)`. -/
def ArgMap.get (args : ArgMap) (key : String) : Option String :=
  (List.lookup key args)

/-- One element of `response['response']['output']` as the function-call
loop of `send_to_twilio` reads it (main.py lines 375-384): its `type`
tag, tool `name`, `call_id`, and the result of `json.loads` on its
`arguments` string (`Except.error` when parsing raised, in which case the
loop `continue`s). -/
structure OutputItem where
  itemType : String
  name : String
  call_id : String
  arguments : Except String ArgMap

/-- The `save_user_email` branch (main.py lines 408-422, identically
`OpenAIHandler._handle_save_email`): `email = arguments.get("email")`;
under `if email:` (truthiness — absent or empty is falsy) the session's
`user_email` is overwritten; the function output sent back is always the
same success payload. -/
def handle_save_email (conv : ConvState) (call_id : String) (args : ArgMap) :
    ConvState × List Cmd :=
  let email := args.get "email"
  let conv' := if truthyStr email then { conv with user_email := email } else conv
  (conv', [Cmd.itemCreate call_id (FnOutput.result "Email saved successfully.")])

/-- The `set_reason_for_calling` branch (main.py lines 424-438, identically
`OpenAIHandler._handle_set_reason`): same shape as `handle_save_email` with
the `reason` argument and field. -/
def handle_set_reason (conv : ConvState) (call_id : String) (args : ArgMap) :
    ConvState × List Cmd :=
  let reason := args.get "reason"
  let conv' :=
    if truthyStr reason then { conv with reason_for_calling := reason } else conv
  (conv', [Cmd.itemCreate call_id (FnOutput.result "Reason for calling saved successfully.")])

/-- The `search_knowledge_base` branch (main.py lines 388-406, identically
`OpenAIHandler._handle_kb_search`).  The external KB engine is the oracle
`kb : String → Option String` (`search_and_summarize`, `None` when it finds
nothing; its lazy initialisation is a side effect with no bearing on the
commands).  `arguments["query"]` raises `KeyError` when the key is absent;
that exception is caught by the surrounding handler (modelled by the caller,
`handle_function_call_item`), so this branch returns `Except`. -/
def handle_kb_search (kb : String → Option String) (call_id : String)
    (args : ArgMap) : Except String (List Cmd) :=
  match args.get "query" with
  | none => Except.error "KeyError: query"
  | some q =>
    let summary := kb q
    Except.ok [Cmd.itemCreate call_id (FnOutput.result (summary.getD
      "No relevant information found in the AdvocateHub knowledge base."))]

/-- One iteration of the function-call loop of `send_to_twilio`'s
`response.done` branch (main.py lines 375-454).  Items whose `type` is not
`function_call` are skipped; a failing `json.loads` on `arguments` hits
`continue` (no commands); otherwise the named branch runs inside a `try:`
whose tail (line 441) sends one `response.create` — so every parsed
function-call item, a tool of an unknown name included, is followed by
exactly one `response.create`.  An exception inside the `try` (here: the
`KeyError` of a missing `"query"`), is caught at lines 443-454 and answered
with an error `function_call_output` plus a `response.create`. -/
def handle_function_call_item (kb : String → Option String) (conv : ConvState)
    (item : OutputItem) : ConvState × List Cmd :=
  if item.itemType ≠ "function_call" then (conv, [])
  else
    match item.arguments with
    | Except.error _ => (conv, [])
    | Except.ok args =>
      if item.name = "search_knowledge_base" then
        match handle_kb_search kb item.call_id args with
        | Except.ok cmds => (conv, cmds ++ [Cmd.responseCreate])
        | Except.error e =>
          (conv, [Cmd.itemCreate item.call_id (FnOutput.error e), Cmd.responseCreate])
      else if item.name = "save_user_email" then
        let (conv', cmds) := handle_save_email conv item.call_id args
        (conv', cmds ++ [Cmd.responseCreate])
      else if item.name = "set_reason_for_calling" then
        let (conv', cmds) := handle_set_reason conv item.call_id args
        (conv', cmds ++ [Cmd.responseCreate])
      else
        (conv, [Cmd.responseCreate])

/-- The whole function-call pass over `response['response']['output']`
(main.py line 375: `for output_item in response['response']['output']:`),
threading the conversation state and concatenating the sent commands in
order. -/
def handle_function_calls (kb : String → Option String) (conv : ConvState) :
    List OutputItem → ConvState × List Cmd
  | [] => (conv, [])
  | item :: rest =>
    let (conv', cmds) := handle_function_call_item kb conv item
    let (conv'', cmds') := handle_function_calls kb conv' rest
    (conv'', cmds ++ cmds')

/-- The number of `response.create` commands in a sent-command list. -/
def countResponseCreate : List Cmd → Nat
  | [] => 0
  | Cmd.responseCreate :: rest => countResponseCreate rest + 1
  | _ :: rest => countResponseCreate rest

/-- An output item counts toward `response.create` traffic iff its type tag
is `function_call` and its `arguments` string parsed. -/
def parsedFunctionCall (item : OutputItem) : Bool :=
  item.itemType == "function_call" &&
    (match item.arguments with | Except.ok _ => true | Except.error _ => false)

/-- `AudioSegment` (src/audio/recorder.py lines 11-15): role ("user" or
"assistant"), arrival timestamp (wall clock, abstract instant), decoded
payload bytes. -/
structure AudioSegment where
  role : String
  timestamp : Nat
  audio_data : List Nat
  deriving Repr, DecidableEq

/-- `AudioRecorder` (src/audio/recorder.py lines 17-29), restricted to its
pure state: the chronological segment list and the recording start time.
The directories it creates are file-system effects outside the model. -/
structure AudioRecorder where
  stream_sid : String
  segments : List AudioSegment
  recording_start_time : Nat
  deriving Repr, DecidableEq

/-- One utterance of the manifest (src/audio/recorder.py lines 75-79):
a maximal role-contiguous run with its start and end instants. -/
structure Utterance where
  role : String
  start_time : Nat
  end_time : Nat
  deriving Repr, DecidableEq

/-- The manifest `metadata` dict of `AudioRecorder.close`
(src/audio/recorder.py lines 99-104); the artifact paths (`audio_file`,
`metadata_file`) are file-system names outside the model. -/
structure RecordingManifest where
  start_time : Nat
  end_time : Nat
  utterances : List Utterance
  deriving Repr, DecidableEq

/-- The utterance-collapsing loop of `AudioRecorder.close`
(src/audio/recorder.py lines 68-88), with its three loop variables
`utterances`, `current_role`, `current_start` threaded explicitly.  Each
iteration runs the two `if`s of the source in order: on a role change away
from a truthy `current_role` it appends the closed utterance and moves
`current_start`; whenever the role is fresh or changed it rebinds
`current_role` and `current_start`.  (`current_start.getD 0` embeds the
source's unguarded read of `current_start`, which is only reached while
`current_role` is truthy and hence `current_start` is set.) -/
def collapseSegments : List AudioSegment → Option String → Option Nat →
    List Utterance → List Utterance × Option String × Option Nat
  | [], current_role, current_start, utterances =>
    (utterances, current_role, current_start)
  | seg :: rest, current_role, current_start, utterances =>
    let step1 :=
      if truthyStr current_role && (current_role ≠ some seg.role) then
        (utterances ++ [⟨current_role.getD "", current_start.getD 0, seg.timestamp⟩],
         some seg.timestamp)
      else (utterances, current_start)
    let step2 :=
      if !truthyStr current_role || (current_role ≠ some seg.role) then
        (some seg.role, some seg.timestamp)
      else (current_role, step1.2)
    collapseSegments rest step2.1 step2.2 step1.1

/-- `AudioRecorder.close` (src/audio/recorder.py lines 50-119): `None` on an
empty segment list; otherwise the segments are sorted by timestamp (Python
`list.sort` is stable; embedded by the stable `List.insertionSort`),
collapsed into role-contiguous utterances, the final open utterance is
closed at the current instant `now` (`datetime.now()`), and the manifest is
returned.  The WAV concatenation and the JSON metadata file are file-system
effects outside the model. -/
def AudioRecorder.close (now : Nat) (r : AudioRecorder) : Option RecordingManifest :=
  if r.segments.isEmpty then none
  else
    let sorted := r.segments.insertionSort (fun a b => a.timestamp ≤ b.timestamp)
    let result := collapseSegments sorted none none []
    let utterances :=
      if truthyStr result.2.1 then
        result.1 ++ [⟨(result.2.1).getD "", (result.2.2).getD 0, now⟩]
      else result.1
    some { start_time := r.recording_start_time, end_time := now,
           utterances := utterances }

/-- The number of maximal runs of equal adjacent elements in a role list,
relative to the role currently open (`none` when no run is open). -/
def numRunsFrom : Option String → List String → Nat
  | _, [] => 0
  | cur, role :: rest =>
    (if cur = some role then 0 else 1) + numRunsFrom (some role) rest

/-- The number of maximal runs of equal adjacent elements in a role list. -/
def numRuns (roles : List String) : Nat :=
  numRunsFrom none roles

/-- Python `x or default` on an optional string (`self.user_email or
"Not provided"`): the value when truthy, the default when `None` or empty. -/
def orStr (x : Option String) (default : String) : String :=
  if truthyStr x then x.getD "" else default

/-- One transcript paragraph of `get_formatted_transcript` (main.py lines
206-220, src/conversation/state.py lines 70-84): style and speaker label
chosen by role, timestamp rendered by the formatter standing for
`strftime("%H:%M:%S")`. -/
def message_html (fmt : Nat → String) (msg : Message) : String :=
  let style :=
    if msg.role = "assistant" then "color: #2962FF; margin-bottom: 15px;"
    else "color: #424242; margin-bottom: 15px;"
  let speaker := if msg.role = "assistant" then "AI Assistant" else "Customer"
  "<p style='" ++ style ++ "'>" ++ "<strong>[" ++ fmt msg.timestamp ++ "] " ++
    speaker ++ ":</strong><br/>" ++ msg.content ++ "</p>"

/-- `get_formatted_transcript` (main.py lines 179-224, identically
src/conversation/state.py lines 43-88): the HTML transcript, section
headers, optional reason line, one paragraph per message, joined by
newlines. -/
def get_formatted_transcript (fmt : Nat → String) (conv : ConvState) : String :=
  let header :=
    ["<h2>Customer Information</h2>", "<hr/>",
     "<p><strong>Email:</strong> " ++ orStr conv.user_email "Not provided" ++ "</p>",
     "", "<h2>Support Request Details</h2>", "<hr/>"]
  let reasonLines :=
    if truthyStr conv.reason_for_calling then
      ["<p><strong>Reason for Call:</strong> " ++
        conv.reason_for_calling.getD "" ++ "</p>"]
    else []
  let opening :=
    ["", "<h2>Conversation History</h2>", "<hr/>",
     "<div class='transcript' style='margin-left: 20px;'>"]
  let msgLines := conv.transcript.map (message_html fmt)
  String.intercalate "\n" (header ++ reasonLines ++ opening ++ msgLines ++ ["</div>"])

/-- `get_conversation_summary` (main.py lines 172-177): the email as stored
and the reason with the `or "Not clearly stated"` fallback. -/
def get_conversation_summary (conv : ConvState) : Option String × String :=
  (conv.user_email, orStr conv.reason_for_calling "Not clearly stated")

/-- The `ticket_content` string of the `stop` branch (main.py lines
301-312).  Datetimes are rendered by `fmt`; the `:.2f` float rendering of
the duration in seconds is abstracted to the integer rendering of
`now - call_start_time`; an unset `stream_sid` interpolates as Python's
`"None"`.  The claims read this string only through its length. -/
def ticket_content (fmt : Nat → String) (now : Nat) (s : SessionState)
    (conv : ConvState) (transcript_text : String) : String :=
  let analysis := get_conversation_summary conv
  "Call Duration: " ++ toString (now - conv.call_start_time) ++ " seconds\n" ++
  "Call Start Time: " ++ fmt conv.call_start_time ++ "\n" ++
  "Call End Time: " ++ fmt now ++ "\n" ++
  "Stream SID: " ++ (match s.stream_sid with | none => "None" | some sid => sid) ++ "\n" ++
  "Total Messages: " ++ toString conv.transcript.length ++ "\n" ++
  "User Email: " ++ orStr analysis.1 "Not provided" ++ "\n\n" ++
  "Reason for Call: " ++ analysis.2 ++ "\n\n" ++
  "Conversation Transcript\n" ++ "====================\n\n" ++
  transcript_text ++ "\n"

/-- The `stop` branch of `receive_from_twilio` (main.py lines 290-330).
The external ticketing collaborator's outcome (`await
kayako_client.create_ticket(ticket)`) is the parameter
`create_ticket_result`.  The first component collects the `print` log
lines of the branch; the second is its control outcome: the `try`/`except`
at lines 323-330 catches every exception and its handler ends without
`raise`, so the branch completes normally (`Except.ok ()`) on failure as
well as on success. -/
def handle_stop_event (create_ticket_result : Except String Nat)
    (fmt : Nat → String) (now : Nat) (s : SessionState) (conv : ConvState) :
    List String × Except String Unit :=
  let transcript_text := get_formatted_transcript fmt conv
  let content := ticket_content fmt now s conv transcript_text
  match create_ticket_result with
  | Except.ok ticket_id =>
    (["Created Kayako ticket with ID: " ++ toString ticket_id,
      "Ticket content length: " ++ toString content.length ++ " characters"],
     Except.ok ())
  | Except.error e =>
    (["Error creating Kayako ticket: " ++ e,
      "Transcript that failed to save:",
      transcript_text],
     Except.ok ())

/-- One step of the mark-queue protocol: an outbound mark push
(`send_mark`, run by the Outbound Pump per audio delta) or an inbound
mark-ack (`receive_from_twilio`'s `mark` branch). -/
inductive MarkOp
  | push
  | ack
  deriving Repr, DecidableEq

/-- Run an interleaving of mark pushes and mark-acks against a session
state, each step the corresponding source handler. -/
def run_marks : List MarkOp → SessionState → SessionState
  | [], s => s
  | MarkOp.push :: rest, s => run_marks rest (send_mark s).1
  | MarkOp.ack :: rest, s => run_marks rest (handle_mark_event s)

/-- Every ack of the interleaving arrives while the queue it pops is
non-empty (each ack is preceded by at least one unmatched push). -/
def acksValid : List MarkOp → SessionState → Bool
  | [], _ => true
  | MarkOp.push :: rest, s => acksValid rest (send_mark s).1
  | MarkOp.ack :: rest, s => !s.mark_queue.isEmpty && acksValid rest (handle_mark_event s)

/-- The number of pushes in an interleaving. -/
def countPush : List MarkOp → Nat
  | [] => 0
  | MarkOp.push :: rest => countPush rest + 1
  | MarkOp.ack :: rest => countPush rest

/-- The number of acks in an interleaving. -/
def countAck : List MarkOp → Nat
  | [] => 0
  | MarkOp.push :: rest => countAck rest
  | MarkOp.ack :: rest => countAck rest + 1

/-! ### Theorems -/

/-- An empty conversation, as `ConversationState.__init__` builds it. -/
def conv0 : ConvState := ⟨[], none, none, 0⟩

/-- A freshly started session (after a `start` event for stream "MZa"). -/
def sess0 : SessionState := ⟨some "MZa", 0, none, [], none⟩

/-- C2.  With the handler's guard satisfied — a non-empty `mark_queue`, a
non-null `response_start_timestamp_twilio` and a truthy
`last_assistant_item` — handling speech-started sends the truncate command
referencing `last_assistant_item` with content index 0 and
`audio_end_ms = latest_media_timestamp - response_start_timestamp_twilio`,
followed by the clear command for the session's stream id, and leaves
`mark_queue` empty and `last_assistant_item` and
`response_start_timestamp_twilio` null. -/
theorem speech_started_truncates (s : SessionState) (ts : Int) (item : String)
    (hts : s.response_start_timestamp_twilio = some ts)
    (hmq : s.mark_queue ≠ [])
    (hitem : s.last_assistant_item = some item) (hne : item ≠ "") :
    handle_speech_started_event s =
      ({ s with mark_queue := [], last_assistant_item := none,
                response_start_timestamp_twilio := none },
       [Cmd.truncate item 0 (s.latest_media_timestamp - ts),
        Cmd.twilioClear s.stream_sid]) := by
  cases hq : s.mark_queue with
  | nil => exact absurd hq hmq
  | cons a l =>
    simp [handle_speech_started_event, hts, hq, hitem, truthyStr, hne]

/-- C2 witness: a concrete speaking session, interrupted. -/
theorem speech_started_truncates_witness :
    handle_speech_started_event ⟨some "MZa", 40, some "itemX", ["responsePart"], some 15⟩ =
      (⟨some "MZa", 40, none, [], none⟩,
       [Cmd.truncate "itemX" 0 25, Cmd.twilioClear (some "MZa")]) := by
  have h := speech_started_truncates
    ⟨some "MZa", 40, some "itemX", ["responsePart"], some 15⟩ 15 "itemX"
    rfl (by decide) rfl (by decide)
  simpa using h

/-- C3 counterexample: in a session state whose elapsed value
`latest_media_timestamp - response_start_timestamp_twilio` is negative
(here 0 - 40 = -40) and whose guard is satisfied, the handler is not a
no-op: it emits the truncate command with the negative `audio_end_ms` and
the clear command.  The source has no sign check on `elapsed_time`. -/
theorem speech_started_negative_elapsed_not_noop :
    ((0 : Int) - 40 < 0) ∧
    (handle_speech_started_event ⟨some "MZa", 0, some "itemX", ["responsePart"], some 40⟩).2 =
      [Cmd.truncate "itemX" 0 (-40), Cmd.twilioClear (some "MZa")] := by
  decide

/-- C3 amended: when `response_start_timestamp_twilio` is null, handling a
speech-started event emits no command and changes nothing — a silent no-op,
not an error.  (The negative-elapsed half of the original claim is false;
see the counterexample.) -/
theorem speech_started_null_anchor_noop (s : SessionState)
    (h : s.response_start_timestamp_twilio = none) :
    handle_speech_started_event s = (s, []) := by
  simp [handle_speech_started_event, h]

/-- C3 amended witness. -/
theorem speech_started_null_anchor_noop_witness :
    handle_speech_started_event ⟨some "MZa", 100, some "itemX", ["responsePart"], none⟩ =
      (⟨some "MZa", 100, some "itemX", ["responsePart"], none⟩, []) :=
  speech_started_null_anchor_noop ⟨some "MZa", 100, some "itemX", ["responsePart"], none⟩ rfl

/-- C9.  An empty `mark_queue` alone makes speech-started a silent no-op:
no truncate, no clear, and the session state — `last_assistant_item` and
`response_start_timestamp_twilio` included — is unchanged, even when both
are set.  A non-empty `mark_queue` is thus an extra barge-in precondition
beyond the ones the spec states. -/
theorem speech_started_empty_mark_queue_noop (s : SessionState)
    (h : s.mark_queue = []) :
    handle_speech_started_event s = (s, []) := by
  cases hts : s.response_start_timestamp_twilio with
  | none => simp [handle_speech_started_event, hts]
  | some ts => simp [handle_speech_started_event, hts, h]

/-- C9 witness: anchor and item both set, queue empty — still a no-op. -/
theorem speech_started_empty_mark_queue_noop_witness :
    handle_speech_started_event ⟨some "MZa", 100, some "itemX", [], some 40⟩ =
      (⟨some "MZa", 100, some "itemX", [], some 40⟩, []) :=
  speech_started_empty_mark_queue_noop ⟨some "MZa", 100, some "itemX", [], some 40⟩ rfl

/-- C4.  Evaluating the `start` branch on a session that already has a
response in flight: the shared `latest_media_timestamp` is reset to 0 and
`stream_sid` is rebound, but `response_start_timestamp_twilio` and
`last_assistant_item` keep their old values in the state shared with
`send_to_twilio` and `handle_speech_started_event` — the two resets at
main.py lines 284 and 286 bind function-locals because `receive_from_twilio`
declares only `nonlocal stream_sid, latest_media_timestamp` (line 270). -/
theorem start_event_reset_not_shared :
    handle_start_event ⟨some "MZold", 4242, some "item-1", ["responsePart"], some 100⟩ "MZnew" =
      ⟨some "MZnew", 0, some "item-1", ["responsePart"], some 100⟩ := by
  decide

/-- C10.  `save_user_email` always answers with the success payload
"Email saved successfully.", whatever the arguments; and when the `email`
argument is absent or empty (falsy), the conversation state — its
`user_email` field included — is left unchanged while that same success
payload is still sent. -/
theorem save_email_always_succeeds (conv : ConvState) (call_id : String)
    (args : ArgMap) :
    (handle_save_email conv call_id args).2 =
      [Cmd.itemCreate call_id (FnOutput.result "Email saved successfully.")] ∧
    (args.get "email" = none ∨ args.get "email" = some "" →
      (handle_save_email conv call_id args).1 = conv) := by
  refine ⟨rfl, fun h => ?_⟩
  cases h with
  | inl h => simp [handle_save_email, h, truthyStr]
  | inr h => simp [handle_save_email, h, truthyStr]

/-- C10 witness: no `email` argument at all — success payload sent, state
unchanged. -/
theorem save_email_always_succeeds_witness :
    (handle_save_email conv0 "call-1" ([] : ArgMap)).2 =
      [Cmd.itemCreate "call-1" (FnOutput.result "Email saved successfully.")] ∧
    (handle_save_email conv0 "call-1" ([] : ArgMap)).1 = conv0 :=
  ⟨(save_email_always_succeeds conv0 "call-1" []).1,
   (save_email_always_succeeds conv0 "call-1" []).2 (Or.inl rfl)⟩

/-- C6 counterexample: dispatching a function call named "unknown_tool"
(with well-formed arguments) sends no `function_call_output` at all — in
particular no structured error result — only the bare `response.create`:
none of the three name branches matches and the loop tail at main.py line
441 still runs.  (No exception is raised either; the claim's error-result
half is what fails.) -/
theorem unknown_tool_no_error_result :
    (handle_function_call_item (fun _ => none) conv0
        ⟨"function_call", "unknown_tool", "call-1", Except.ok [("x", "y")]⟩) =
      (conv0, [Cmd.responseCreate]) := by
  decide

/-- C6 amended: dispatching a function call whose name is not one of the
three registered tool names silently skips it — no function output of any
kind (result or error) is sent back, only one `response.create` — and the
dispatcher returns normally (the embedding is a total function; no
exception path is taken). -/
theorem unknown_tool_skipped (kb : String → Option String) (conv : ConvState)
    (call_id : String) (args : ArgMap) (name : String)
    (h1 : name ≠ "search_knowledge_base") (h2 : name ≠ "save_user_email")
    (h3 : name ≠ "set_reason_for_calling") :
    handle_function_call_item kb conv ⟨"function_call", name, call_id, Except.ok args⟩ =
      (conv, [Cmd.responseCreate]) := by
  simp [handle_function_call_item, h1, h2, h3]

/-- C6 amended witness. -/
theorem unknown_tool_skipped_witness :
    handle_function_call_item (fun _ => none) conv0
        ⟨"function_call", "delete_everything", "call-9", Except.ok []⟩ =
      (conv0, [Cmd.responseCreate]) :=
  unknown_tool_skipped (fun _ => none) conv0 "call-9" [] "delete_everything"
    (by decide) (by decide) (by decide)

/-- C8 counterexample: when ticket creation fails (here with "boom"), the
`stop` branch completes normally — its control outcome is `Except.ok ()`,
not a propagated error: the `except` handler at main.py lines 327-330 ends
without `raise`, so nothing is re-raised to the caller. -/
theorem ticket_failure_not_reraised :
    (handle_stop_event (Except.error "boom") (fun _ => "") 0 sess0 conv0).2 =
      Except.ok () := by
  rfl

/-- C8 amended: on any ticket-submission failure the branch logs the failure
together with the full rendered transcript (so the transcript is never
silently discarded), and then swallows the error, returning normally rather
than re-raising it. -/
theorem ticket_failure_logs_transcript (e : String) (fmt : Nat → String)
    (now : Nat) (s : SessionState) (conv : ConvState) :
    handle_stop_event (Except.error e) fmt now s conv =
      (["Error creating Kayako ticket: " ++ e,
        "Transcript that failed to save:",
        get_formatted_transcript fmt conv],
       Except.ok ()) := by
  rfl

/-- `countResponseCreate` distributes over concatenation. -/
theorem countResponseCreate_append (a b : List Cmd) :
    countResponseCreate (a ++ b) = countResponseCreate a + countResponseCreate b := by
  induction a with
  | nil => simp [countResponseCreate]
  | cons c rest ih =>
    cases c <;> simp [countResponseCreate, ih]
    omega

/-- Each output item contributes exactly one `response.create` when it is a
parsed function call (whatever its name, and on the error path too) and
none otherwise. -/
theorem countResponseCreate_item (kb : String → Option String) (conv : ConvState)
    (item : OutputItem) :
    countResponseCreate (handle_function_call_item kb conv item).2 =
      if parsedFunctionCall item then 1 else 0 := by
  by_cases ht : item.itemType = "function_call"
  · cases harg : item.arguments with
    | error e =>
      simp [handle_function_call_item, parsedFunctionCall, ht, harg, countResponseCreate]
    | ok args =>
      by_cases h1 : item.name = "search_knowledge_base"
      · cases hq : args.get "query" <;>
          simp [handle_function_call_item, parsedFunctionCall, ht, harg, h1,
            handle_kb_search, hq, countResponseCreate]
      · by_cases h2 : item.name = "save_user_email"
        · simp [handle_function_call_item, parsedFunctionCall, ht, harg, h1, h2,
            handle_save_email, countResponseCreate, countResponseCreate_append]
        · by_cases h3 : item.name = "set_reason_for_calling"
          · simp [handle_function_call_item, parsedFunctionCall, ht, harg, h1, h2, h3,
              handle_set_reason, countResponseCreate, countResponseCreate_append]
          · simp [handle_function_call_item, parsedFunctionCall, ht, harg, h1, h2, h3,
              countResponseCreate]
  · simp [handle_function_call_item, parsedFunctionCall, ht, countResponseCreate]

/-- Unfolding of the function-call pass on a cons cell (the pattern-matching
`let` reduces by structure eta). -/
theorem handle_function_calls_cons (kb : String → Option String)
    (conv : ConvState) (item : OutputItem) (rest : List OutputItem) :
    handle_function_calls kb conv (item :: rest) =
      ((handle_function_calls kb (handle_function_call_item kb conv item).1 rest).1,
       (handle_function_call_item kb conv item).2 ++
         (handle_function_calls kb (handle_function_call_item kb conv item).1 rest).2) := by
  rfl

/-- C1 counterexample: one `response.done` batch containing two
function-call items yields two `response.create` commands, not one — the
"generate next response" send at main.py line 441 sits inside the per-item
loop, so it runs once per function call. -/
theorem response_done_two_calls_two_creates :
    countResponseCreate (handle_function_calls (fun _ => none) conv0
        [⟨"function_call", "save_user_email", "call-1", Except.ok [("email", "a@b.c")]⟩,
         ⟨"function_call", "save_user_email", "call-2", Except.ok [("email", "a@b.c")]⟩]).2 = 2 ∧
    countResponseCreate (handle_function_calls (fun _ => none) conv0
        [⟨"function_call", "save_user_email", "call-1", Except.ok [("email", "a@b.c")]⟩,
         ⟨"function_call", "save_user_email", "call-2", Except.ok [("email", "a@b.c")]⟩]).2 ≠ 1 := by
  decide

/-- C1 amended: processing the output batch of a response-completed event
sends exactly one `response.create` per function-call item whose arguments
parse (on the success path and on the caught-error path alike; items of
other types or with unparseable arguments contribute none) — so a batch of
k parsed function calls yields k such commands, never exactly one for the
whole batch when k ≠ 1. -/
theorem response_create_count (kb : String → Option String) (conv : ConvState)
    (items : List OutputItem) :
    countResponseCreate (handle_function_calls kb conv items).2 =
      items.countP parsedFunctionCall := by
  induction items generalizing conv with
  | nil => rfl
  | cons item rest ih =>
    rw [handle_function_calls_cons, countResponseCreate_append,
      countResponseCreate_item, ih, List.countP_cons]
    by_cases h : parsedFunctionCall item <;> simp [h]
    omega

/-- Mark-queue invariant: running any interleaving of pushes and valid acks
leaves the queue equal to the pushed sequence appended to the starting
queue, with the first `countAck` entries dropped from the front. -/
theorem run_marks_queue (t : List MarkOp) (s : SessionState)
    (hsid : truthyStr s.stream_sid = true) (hvalid : acksValid t s = true) :
    (run_marks t s).mark_queue =
      (s.mark_queue ++ List.replicate (countPush t) "responsePart").drop (countAck t) := by
  induction t generalizing s with
  | nil => simp [run_marks, countPush, countAck]
  | cons op rest ih =>
    cases op with
    | push =>
      have hstep : (send_mark s).1 =
          { s with mark_queue := s.mark_queue ++ ["responsePart"] } := by
        simp [send_mark, hsid]
      have hsid' : truthyStr ((send_mark s).1).stream_sid = true := by
        rw [hstep]; exact hsid
      have hvalid' : acksValid rest (send_mark s).1 = true := hvalid
      show (run_marks rest (send_mark s).1).mark_queue = _
      rw [ih _ hsid' hvalid', hstep]
      simp [countPush, countAck, List.replicate_succ, List.append_assoc]
    | ack =>
      have hvalid' : (!s.mark_queue.isEmpty && acksValid rest (handle_mark_event s)) = true :=
        hvalid
      rw [Bool.and_eq_true] at hvalid'
      cases hq : s.mark_queue with
      | nil => rw [hq] at hvalid'; simp at hvalid'
      | cons a q =>
        have hstep : handle_mark_event s = { s with mark_queue := q } := by
          simp [handle_mark_event, hq]
        have hsid' : truthyStr (handle_mark_event s).stream_sid = true := by
          rw [hstep]; exact hsid
        show (run_marks rest (handle_mark_event s)).mark_queue = _
        rw [ih _ hsid' hvalid'.2, hstep]
        simp [countPush, countAck, hq, List.drop_succ_cons]

/-- C5.  From an empty queue in a session with a truthy stream id, any
interleaving of N pushes and M mark-acks in which every ack is processed
while the queue is non-empty leaves `mark_queue` of length N - M, equal to
the pushed sequence with its first M entries removed from the front — the
last N - M pushed names in push order (every ack pops the head by position,
never by name). -/
theorem mark_queue_fifo (t : List MarkOp) (s : SessionState)
    (hsid : truthyStr s.stream_sid = true) (hq : s.mark_queue = [])
    (hvalid : acksValid t s = true) :
    (run_marks t s).mark_queue.length = countPush t - countAck t ∧
    (run_marks t s).mark_queue =
      (List.replicate (countPush t) "responsePart").drop (countAck t) := by
  have h := run_marks_queue t s hsid hvalid
  rw [hq] at h
  simp only [List.nil_append] at h
  exact ⟨by rw [h]; simp, h⟩

/-- C5 witness: N = 3 pushes and M = 2 acks interleaved as
push, push, ack, push, ack — one entry survives. -/
theorem mark_queue_fifo_witness :
    (run_marks [MarkOp.push, MarkOp.push, MarkOp.ack, MarkOp.push, MarkOp.ack]
        sess0).mark_queue.length = 1 ∧
    (run_marks [MarkOp.push, MarkOp.push, MarkOp.ack, MarkOp.push, MarkOp.ack]
        sess0).mark_queue = ["responsePart"] := by
  have h := mark_queue_fifo
    [MarkOp.push, MarkOp.push, MarkOp.ack, MarkOp.push, MarkOp.ack]
    sess0 (by decide) rfl (by decide)
  simpa using h

/-- Counting invariant of the collapsing loop: closed utterances plus the
open run (if any) grow by exactly the number of role runs consumed.  The
hypotheses mirror the program: roles are "user"/"assistant" (never the
falsy ""), and `current_role` is `None` or one of them. -/
theorem collapseSegments_count (segs : List AudioSegment) :
    ∀ (cr : Option String) (cs : Option Nat) (acc : List Utterance),
    (∀ seg ∈ segs, seg.role ≠ "") →
    (cr = none ∨ ∃ r, cr = some r ∧ r ≠ "") →
    (collapseSegments segs cr cs acc).1.length +
        (if truthyStr (collapseSegments segs cr cs acc).2.1 then 1 else 0) =
      acc.length + (if truthyStr cr then 1 else 0) +
        numRunsFrom cr (segs.map AudioSegment.role) := by
  induction segs with
  | nil =>
    intro cr cs acc _ _
    simp [collapseSegments, numRunsFrom]
  | cons seg rest ih =>
    intro cr cs acc hroles hcr
    have hrole : seg.role ≠ "" := hroles seg (by simp)
    have hroles' : ∀ s ∈ rest, s.role ≠ "" := fun s hs => hroles s (by simp [hs])
    rcases hcr with rfl | ⟨r, rfl, hrne⟩
    · have hstep : collapseSegments (seg :: rest) none cs acc =
          collapseSegments rest (some seg.role) (some seg.timestamp) acc := by
        simp [collapseSegments, truthyStr]
      rw [hstep, ih (some seg.role) (some seg.timestamp) acc hroles'
        (Or.inr ⟨seg.role, rfl, hrole⟩)]
      simp [numRunsFrom, truthyStr, hrole]
      omega
    · by_cases heq : r = seg.role
      · subst heq
        have hstep : collapseSegments (seg :: rest) (some seg.role) cs acc =
            collapseSegments rest (some seg.role) cs acc := by
          simp [collapseSegments, truthyStr, hrne]
        rw [hstep, ih (some seg.role) cs acc hroles' (Or.inr ⟨seg.role, rfl, hrne⟩)]
        simp [numRunsFrom]
      · have hstep : collapseSegments (seg :: rest) (some r) cs acc =
            collapseSegments rest (some seg.role) (some seg.timestamp)
              (acc ++ [⟨r, cs.getD 0, seg.timestamp⟩]) := by
          simp [collapseSegments, truthyStr, hrne, heq]
        rw [hstep, ih (some seg.role) (some seg.timestamp) _ hroles'
          (Or.inr ⟨seg.role, rfl, hrole⟩)]
        simp [numRunsFrom, truthyStr, hrole, hrne, heq]
        omega

/-- C7.  Finalizing with no captured frame yields no manifest (`none`,
distinguishable from an empty-but-present one); finalizing a non-empty
frame list (with the program's "user"/"assistant" roles) yields a manifest
whose utterance count is exactly the number of maximal role-contiguous runs
of the timestamp-sorted frames — so frames with roles A, B, A give 3
utterances. -/
theorem recorder_close_runs (now : Nat) (r : AudioRecorder) :
    (r.segments = [] → AudioRecorder.close now r = none) ∧
    (r.segments ≠ [] → (∀ seg ∈ r.segments, seg.role ≠ "") →
      ∃ m, AudioRecorder.close now r = some m ∧
        m.start_time = r.recording_start_time ∧ m.end_time = now ∧
        m.utterances.length =
          numRuns ((r.segments.insertionSort
            (fun a b => a.timestamp ≤ b.timestamp)).map AudioSegment.role)) := by
  constructor
  · intro h
    simp [AudioRecorder.close, h]
  · intro hne hroles
    have hiso : r.segments.isEmpty = false := by
      cases hs : r.segments with
      | nil => exact absurd hs hne
      | cons a l => rfl
    have hroles' : ∀ seg ∈ r.segments.insertionSort
        (fun a b => a.timestamp ≤ b.timestamp), seg.role ≠ "" := by
      intro seg hseg
      exact hroles seg ((List.perm_insertionSort _ _).mem_iff.mp hseg)
    have hcount := collapseSegments_count
      (r.segments.insertionSort (fun a b => a.timestamp ≤ b.timestamp))
      none none [] hroles' (Or.inl rfl)
    have hclose : AudioRecorder.close now r =
        some { start_time := r.recording_start_time, end_time := now,
               utterances :=
                 if truthyStr (collapseSegments (r.segments.insertionSort
                     (fun a b => a.timestamp ≤ b.timestamp)) none none []).2.1 then
                   (collapseSegments (r.segments.insertionSort
                     (fun a b => a.timestamp ≤ b.timestamp)) none none []).1 ++
                     [⟨((collapseSegments (r.segments.insertionSort
                         (fun a b => a.timestamp ≤ b.timestamp)) none none []).2.1).getD "",
                       ((collapseSegments (r.segments.insertionSort
                         (fun a b => a.timestamp ≤ b.timestamp)) none none []).2.2).getD 0,
                       now⟩]
                 else (collapseSegments (r.segments.insertionSort
                     (fun a b => a.timestamp ≤ b.timestamp)) none none []).1 } := by
      unfold AudioRecorder.close
      rw [hiso]
      rfl
    refine ⟨_, hclose, rfl, rfl, ?_⟩
    cases htr : truthyStr (collapseSegments (r.segments.insertionSort
        (fun a b => a.timestamp ≤ b.timestamp)) none none []).2.1 with
    | false =>
      rw [htr] at hcount
      simp only [htr, if_neg, numRuns, truthyStr] at *
      simpa [numRuns] using hcount
    | true =>
      rw [htr] at hcount
      simp only [htr, if_pos, List.length_append] at *
      simp [numRuns, truthyStr] at hcount ⊢
      omega

/-- C7 witness: three frames with roles user, assistant, user — the
manifest exists and holds exactly 3 utterances. -/
theorem recorder_close_runs_witness :
    ∃ m, AudioRecorder.close 100
        ⟨"MZa", [⟨"user", 1, [0]⟩, ⟨"assistant", 2, [1]⟩, ⟨"user", 3, [2]⟩], 0⟩ = some m ∧
      m.start_time = 0 ∧ m.end_time = 100 ∧ m.utterances.length = 3 := by
  obtain ⟨m, hm, hs, he, hlen⟩ :=
    (recorder_close_runs 100
      ⟨"MZa", [⟨"user", 1, [0]⟩, ⟨"assistant", 2, [1]⟩, ⟨"user", 3, [2]⟩], 0⟩).2
      (by decide) (by decide)
  exact ⟨m, hm, hs, he, by rw [hlen]; decide⟩
